import Mathlib

/-!
Verification development for the VOXAR spatial SLAM bridge
(`src/Unity/SpatialPlatform/Assets/Plugins/Native/SpatialSLAMBridge.h`).

The header declares the C surface (result codes, states, data structures
and the `SpatialSLAM_*` entry points); the engine behind it is specified
in `spec.md`.  The enumerations and record layouts below are translated
directly from the header; the behaviour of the entry points, which is not
present under `src/`, is modelled from the specification (each such
definition carries a doc comment starting `Modelled from the spec:`).
Machine floats that the claims only move around (never compute with) are
represented as `Int`; machine counts as `Nat`.
-/

namespace VOXAR

/-- `SpatialSLAMResult` from SpatialSLAMBridge.h lines 17-29:
the closed set of result codes of every API call. -/
inductive SpatialSLAMResult where
  | SUCCESS
  | ERROR_INVALID_PARAMETER
  | ERROR_INITIALIZATION_FAILED
  | ERROR_SYSTEM_NOT_READY
  | ERROR_PROCESSING_FAILED
  | ERROR_MAP_LOAD_FAILED
  | ERROR_INSUFFICIENT_FEATURES
  | ERROR_TRACKING_LOST
  | ERROR_OUT_OF_MEMORY
  | ERROR_UNSUPPORTED_FORMAT
  | ERROR_FILE_NOT_FOUND
  deriving DecidableEq, Repr, Fintype

/-- The integer value each `SpatialSLAMResult` enumerator is declared with
in SpatialSLAMBridge.h lines 18-28. -/
def SpatialSLAMResult.toInt : SpatialSLAMResult → Int
  | .SUCCESS => 0
  | .ERROR_INVALID_PARAMETER => -1
  | .ERROR_INITIALIZATION_FAILED => -2
  | .ERROR_SYSTEM_NOT_READY => -3
  | .ERROR_PROCESSING_FAILED => -4
  | .ERROR_MAP_LOAD_FAILED => -5
  | .ERROR_INSUFFICIENT_FEATURES => -6
  | .ERROR_TRACKING_LOST => -7
  | .ERROR_OUT_OF_MEMORY => -8
  | .ERROR_UNSUPPORTED_FORMAT => -9
  | .ERROR_FILE_NOT_FOUND => -10

/-- `SpatialSLAMState` from SpatialSLAMBridge.h lines 32-40. -/
inductive SpatialSLAMState where
  | UNINITIALIZED
  | INITIALIZING
  | READY
  | TRACKING
  | LOST
  | RELOCALIZATION
  | FAILED
  deriving DecidableEq, Repr, Fintype

/-- The integer value each `SpatialSLAMState` enumerator is declared with
in SpatialSLAMBridge.h lines 33-39. -/
def SpatialSLAMState.toInt : SpatialSLAMState → Int
  | .UNINITIALIZED => 0
  | .INITIALIZING => 1
  | .READY => 2
  | .TRACKING => 3
  | .LOST => 4
  | .RELOCALIZATION => 5
  | .FAILED => 6

/-- `SpatialSLAMQuality` from SpatialSLAMBridge.h lines 43-48. -/
inductive SpatialSLAMQuality where
  | POOR
  | FAIR
  | GOOD
  | EXCELLENT
  deriving DecidableEq, Repr, Fintype

/-- `SpatialCameraCalibration` from SpatialSLAMBridge.h lines 51-57.
Float-typed fields that the claims never compute with are carried as
`Int` (a fixed-point reading of the stored value). -/
structure SpatialCameraCalibration where
  fx : Int
  fy : Int
  cx : Int
  cy : Int
  k1 : Int
  k2 : Int
  k3 : Int
  p1 : Int
  p2 : Int
  width : Int
  height : Int
  deriving DecidableEq, Repr

/-- `SpatialPose` from SpatialSLAMBridge.h lines 60-65. -/
structure SpatialPose where
  posX : Int
  posY : Int
  posZ : Int
  rotX : Int
  rotY : Int
  rotZ : Int
  rotW : Int
  timestamp : Int
  confidence : Int
  deriving DecidableEq, Repr

/-- `SpatialTrackingStats` from SpatialSLAMBridge.h lines 68-77. -/
structure SpatialTrackingStats where
  total_keyframes : Nat
  total_landmarks : Nat
  tracking_keyframes : Nat
  average_reprojection_error : Int
  processing_time_ms : Int
  quality : SpatialSLAMQuality
  feature_count : Nat
  matched_features : Nat
  deriving DecidableEq, Repr

/-- `SpatialMapInfo` from SpatialSLAMBridge.h lines 80-89 (the `char[64]`
map id is carried as a `Nat` identifier). -/
structure SpatialMapInfo where
  map_id : Nat
  centerX : Int
  centerY : Int
  centerZ : Int
  bbMinX : Int
  bbMinY : Int
  bbMinZ : Int
  bbMaxX : Int
  bbMaxY : Int
  bbMaxZ : Int
  landmark_count : Nat
  keyframe_count : Nat
  creation_timestamp : Int
  version : Nat
  deriving DecidableEq, Repr

/-- `SpatialSLAMConfig` from SpatialSLAMBridge.h lines 92-118. -/
structure SpatialSLAMConfig where
  max_features : Nat
  feature_quality : Int
  min_feature_distance : Int
  max_reprojection_error : Int
  min_tracking_features : Nat
  max_tracking_iterations : Nat
  keyframe_threshold : Nat
  keyframe_distance : Int
  keyframe_angle : Int
  enable_multithreading : Bool
  max_threads : Nat
  enable_loop_closure : Bool
  enable_relocalization : Bool
  max_keyframes : Nat
  max_landmarks : Nat
  memory_limit_mb : Int
  deriving DecidableEq, Repr

/-- Modelled from the spec: a `Landmark` owned by the Map Store — 3D
position, representative descriptor, and the non-owning set of observing
Keyframe identifiers (spec section 3, "Landmark").  The implementation
behind the header is not under `src/`. -/
structure Landmark where
  lid : Nat
  posX : Int
  posY : Int
  posZ : Int
  descriptor : Nat
  observers : Finset Nat
  deriving DecidableEq

/-- Modelled from the spec: the aggregate `Map` of spec section 3 —
identifier, bounding volume, version counter, creation timestamp, and the
sets of Keyframes (by identifier) and Landmarks.  The covisibility graph
is derived from shared landmark observations (spec glossary), not stored. -/
structure GeoMap where
  mapId : Nat
  version : Nat
  creationTimestamp : Int
  centerX : Int
  centerY : Int
  centerZ : Int
  bbMinX : Int
  bbMinY : Int
  bbMinZ : Int
  bbMaxX : Int
  bbMaxY : Int
  bbMaxZ : Int
  keyframes : Finset Nat
  landmarks : List Landmark
  deriving DecidableEq

/-- Modelled from the spec: the Map invariant of spec section 3 — every
Landmark's observer set is a subset of the Keyframes currently in the Map
and every Landmark has at least one observing Keyframe. -/
def MapInv (m : GeoMap) : Prop :=
  ∀ l ∈ m.landmarks, l.observers.Nonempty ∧ l.observers ⊆ m.keyframes

instance (m : GeoMap) : Decidable (MapInv m) := by
  unfold MapInv; infer_instance

/-- Modelled from the spec: the empty active map an instance holds after
create / reset / clear (spec section 4.1: "no map loaded yet (or an
explicit reset/clear occurred)"). -/
def emptyMap : GeoMap :=
  { mapId := 0, version := 0, creationTimestamp := 0
    centerX := 0, centerY := 0, centerZ := 0
    bbMinX := 0, bbMinY := 0, bbMinZ := 0
    bbMaxX := 0, bbMaxY := 0, bbMaxZ := 0
    keyframes := ∅, landmarks := [] }

/-! ### Map Codec (spec section 4.6 and the persistence interface of
section 6): a self-describing versioned binary form, here modelled as a
`List Int` word stream. -/

/-- Modelled from the spec: the magic tag of the versioned binary map
format header (spec section 6: "header (magic/version/...)"). -/
def mapMagic : Int := 0x534C414D

/-- Modelled from the spec: the format version tag of the binary map
format. -/
def mapFormatVersion : Int := 1

/-- Read one word expected to hold a non-negative count or identifier. -/
def readNat : List Int → Option (Nat × List Int)
  | [] => none
  | x :: rest => if 0 ≤ x then some (x.toNat, rest) else none

/-- Read one raw word. -/
def readWord : List Int → Option (Int × List Int)
  | [] => none
  | x :: rest => some (x, rest)

/-- Read `n` words expected to hold non-negative identifiers. -/
def readNats : Nat → List Int → Option (List Nat × List Int)
  | 0, buf => some ([], buf)
  | n + 1, buf =>
    match readNat buf with
    | none => none
    | some (x, buf2) =>
      match readNats n buf2 with
      | none => none
      | some (xs, buf3) => some (x :: xs, buf3)

/-- Modelled from the spec: one Landmark record of the binary map format
(spec section 6: "Landmark records (position, descriptor, observer
list)"). -/
def encodeLandmark (l : Landmark) : List Int :=
  [(l.lid : Int), l.posX, l.posY, l.posZ, (l.descriptor : Int),
    (l.observers.card : Int)] ++
    (l.observers.sort (· ≤ ·)).map (fun (k : Nat) => (k : Int))

/-- Modelled from the spec: decode one Landmark record. -/
def decodeLandmark (buf : List Int) : Option (Landmark × List Int) :=
  match readNat buf with
  | none => none
  | some (lid, b1) =>
    match readWord b1 with
    | none => none
    | some (x, b2) =>
      match readWord b2 with
      | none => none
      | some (y, b3) =>
        match readWord b3 with
        | none => none
        | some (z, b4) =>
          match readNat b4 with
          | none => none
          | some (d, b5) =>
            match readNat b5 with
            | none => none
            | some (c, b6) =>
              match readNats c b6 with
              | none => none
              | some (obs, b7) =>
                some ({ lid := lid, posX := x, posY := y, posZ := z,
                        descriptor := d, observers := obs.toFinset }, b7)

/-- Modelled from the spec: decode `n` consecutive Landmark records. -/
def decodeLandmarks : Nat → List Int → Option (List Landmark × List Int)
  | 0, buf => some ([], buf)
  | n + 1, buf =>
    match decodeLandmark buf with
    | none => none
    | some (l, buf2) =>
      match decodeLandmarks n buf2 with
      | none => none
      | some (ls, buf3) => some (l :: ls, buf3)

/-- Modelled from the spec: serialize the active Map to the versioned
binary form — header (magic, format version, map id, map version,
timestamp, bounding volume, counts), Keyframe records, Landmark records
(spec sections 4.6 and 6). -/
def serializeMap (m : GeoMap) : List Int :=
  [mapMagic, mapFormatVersion, (m.mapId : Int), (m.version : Int),
    m.creationTimestamp,
    m.centerX, m.centerY, m.centerZ,
    m.bbMinX, m.bbMinY, m.bbMinZ,
    m.bbMaxX, m.bbMaxY, m.bbMaxZ,
    (m.keyframes.card : Int), (m.landmarks.length : Int)] ++
  (m.keyframes.sort (· ≤ ·)).map (fun (k : Nat) => (k : Int)) ++
  (m.landmarks.map encodeLandmark).flatten

/-- Modelled from the spec: validation performed by the Map Codec before
accepting a deserialized map — every observation reference resolves to a
Keyframe present in the map and no Landmark is observer-less (spec
section 4.6: "validating a format/version tag and internal consistency
(every observation reference resolves ...) before accepting"). -/
def mapConsistent (kfs : Finset Nat) (ls : List Landmark) : Bool :=
  ls.all (fun l => decide (0 < l.observers.card) && decide (l.observers ⊆ kfs))

/-- Modelled from the spec: decode the body of the map format after the
magic, format-version, map-id, map-version and timestamp words — the nine
bounding-volume words, the counts, the Keyframe records and the Landmark
records — then validate internal consistency (spec section 4.6). -/
def decodeMapTail (mapId mapVer : Nat) (ts : Int) (b5 : List Int) :
    Option GeoMap :=
  match readWord b5 with
    | none => none
    | some (cX, g1) =>
      match readWord g1 with
      | none => none
      | some (cY, g2) =>
        match readWord g2 with
        | none => none
        | some (cZ, g3) =>
          match readWord g3 with
          | none => none
          | some (miX, g4) =>
            match readWord g4 with
            | none => none
            | some (miY, g5) =>
              match readWord g5 with
              | none => none
              | some (miZ, g6) =>
                match readWord g6 with
                | none => none
                | some (maX, g7) =>
                  match readWord g7 with
                  | none => none
                  | some (maY, g8) =>
                    match readWord g8 with
                    | none => none
                    | some (maZ, g9) =>
                      match readNat g9 with
                      | none => none
                      | some (kfCount, h1) =>
                        match readNat h1 with
                        | none => none
                        | some (lmCount, h2) =>
                          match readNats kfCount h2 with
                          | none => none
                          | some (kfIds, h3) =>
                            match decodeLandmarks lmCount h3 with
                            | none => none
                            | some (lms, h4) =>
                              if h4 = [] ∧
                                  mapConsistent kfIds.toFinset lms = true ∧
                                  lms.length = lmCount ∧
                                  kfIds.toFinset.card = kfCount then
                                some { mapId := mapId, version := mapVer,
                                       creationTimestamp := ts,
                                       centerX := cX, centerY := cY, centerZ := cZ,
                                       bbMinX := miX, bbMinY := miY, bbMinZ := miZ,
                                       bbMaxX := maX, bbMaxY := maY, bbMaxZ := maZ,
                                       keyframes := kfIds.toFinset,
                                       landmarks := lms }
                              else none

/-- Modelled from the spec: deserialize the versioned binary form back to
a Map, rejecting the buffer wholesale on a bad magic/version tag, a
truncated or oversized stream, or an internal-consistency failure (spec
section 4.6: "on any validation failure the load is rejected wholesale"). -/
def deserializeMap (buf : List Int) : Option GeoMap :=
  match readWord buf with
  | none => none
  | some (magic, b1) =>
    if magic ≠ mapMagic then none
    else
      match readWord b1 with
      | none => none
      | some (ver, b2) =>
        if ver ≠ mapFormatVersion then none
        else
          match readNat b2 with
          | none => none
          | some (mapId, b3) =>
            match readNat b3 with
            | none => none
            | some (mapVer, b4) =>
              match readWord b4 with
              | none => none
              | some (ts, b5) => decodeMapTail mapId mapVer ts b5

/-! ### Map Store operations (spec sections 4.3-4.5). -/

/-- Modelled from the spec: insert a Keyframe into the Map Store (spec
section 4.3 "insert/remove Keyframe"). -/
def insertKeyframe (m : GeoMap) (k : Nat) : GeoMap :=
  { m with keyframes := insert k m.keyframes, version := m.version + 1 }

/-- Modelled from the spec: remove a Keyframe — its observation
back-references are dropped from every Landmark and Landmarks left with
no observer (orphaned) are culled with it (spec sections 4.3 and 9:
"culling one side cannot leave the other dangling"). -/
def removeKeyframe (m : GeoMap) (k : Nat) : GeoMap :=
  { m with
    keyframes := m.keyframes.erase k,
    landmarks :=
      (m.landmarks.map
        (fun l => { l with observers := l.observers.erase k })).filter
        (fun l => decide (0 < l.observers.card)),
    version := m.version + 1 }

/-- Modelled from the spec: Mapping Worker triangulation — a candidate
Landmark enters the Map only when created from at least two Keyframe
observations, all resolving to Keyframes present in the Map (spec
sections 3 and 4.4). -/
def triangulateLandmark (m : GeoMap) (l : Landmark) : GeoMap :=
  if 2 ≤ l.observers.card ∧ l.observers ⊆ m.keyframes then
    { m with landmarks := l :: m.landmarks, version := m.version + 1 }
  else m

/-- Modelled from the spec: Mapping Worker landmark culling — Landmarks
whose observer count stays at 1 after the grace period are culled (spec
section 4.4). -/
def cullWeakLandmarks (m : GeoMap) : GeoMap :=
  { m with
    landmarks := m.landmarks.filter (fun l => decide (2 ≤ l.observers.card)),
    version := m.version + 1 }

/-- Modelled from the spec: loop-closure merge of duplicate Landmarks —
the Landmark with more observers is preferred and the observer sets are
merged (spec section 4.5). -/
def mergeDuplicateLandmarks (m : GeoMap) (i j : Nat) : GeoMap :=
  match m.landmarks.find? (fun l => decide (l.lid = i)),
      m.landmarks.find? (fun l => decide (l.lid = j)) with
  | some a, some b =>
    if i = j then m
    else
      let keep := if b.observers.card ≤ a.observers.card then a else b
      let merged := { keep with observers := a.observers ∪ b.observers }
      { m with
        landmarks := merged ::
          m.landmarks.filter
            (fun l => decide (l.lid ≠ i) && decide (l.lid ≠ j)),
        version := m.version + 1 }
  | _, _ => m

/-- Modelled from the spec: the map-mutating operations of the Map Store
surface (spec section 4.3 "All mutations maintain the invariants in
section 3"). -/
inductive MapOp where
  | insertKF (k : Nat)
  | cullKF (k : Nat)
  | triangulate (l : Landmark)
  | cullWeak
  | merge (i j : Nat)
  deriving DecidableEq

/-- Modelled from the spec: apply one Map Store mutation. -/
def applyMapOp (m : GeoMap) : MapOp → GeoMap
  | .insertKF k => insertKeyframe m k
  | .cullKF k => removeKeyframe m k
  | .triangulate l => triangulateLandmark m l
  | .cullWeak => cullWeakLandmarks m
  | .merge i j => mergeDuplicateLandmarks m i j

/-- Modelled from the spec: apply a sequence of Map Store mutations. -/
def applyMapOps (m : GeoMap) (ops : List MapOp) : GeoMap :=
  ops.foldl applyMapOp m

/-- Modelled from the spec: total covisibility weight of a Keyframe —
for each Landmark it observes, the number of other Keyframes sharing that
Landmark (glossary: "edge weight = count of shared observed landmarks"). -/
def covisScore (m : GeoMap) (k : Nat) : Nat :=
  ((m.landmarks.filter (fun l => decide (k ∈ l.observers))).map
    (fun l => l.observers.card - 1)).sum

/-- Modelled from the spec: the lowest-covisibility-weight Keyframe, the
designated culling victim of memory ceiling enforcement (spec section
4.3). -/
def lowestCovisKeyframe (m : GeoMap) : Option Nat :=
  match m.keyframes.sort (· ≤ ·) with
  | [] => none
  | k :: ks =>
    some (ks.foldl
      (fun best cand =>
        if covisScore m cand < covisScore m best then cand else best) k)

/-- Modelled from the spec: Keyframe insertion under the `max_keyframes`
memory ceiling — when the ceiling would be exceeded the
lowest-covisibility-weight Keyframe (and its orphaned Landmarks) is
culled first; if that frees no headroom the insertion fails with the
out-of-memory result and the map is left as it was (spec sections 4.3 and
7(c)). -/
def insertKeyframeChecked (cfg : SpatialSLAMConfig) (m : GeoMap) (k : Nat) :
    SpatialSLAMResult × GeoMap :=
  if m.keyframes.card < cfg.max_keyframes then (.SUCCESS, insertKeyframe m k)
  else
    match lowestCovisKeyframe m with
    | none => (.ERROR_OUT_OF_MEMORY, m)
    | some victim =>
      let m2 := removeKeyframe m victim
      if m2.keyframes.card < cfg.max_keyframes then
        (.SUCCESS, insertKeyframe m2 k)
      else (.ERROR_OUT_OF_MEMORY, m)

/-- Modelled from the spec: Landmark insertion under the `max_landmarks`
memory ceiling, by the same culling-then-fail discipline (spec sections
4.3 and 7(c)). -/
def insertLandmarkChecked (cfg : SpatialSLAMConfig) (m : GeoMap)
    (l : Landmark) : SpatialSLAMResult × GeoMap :=
  if m.landmarks.length < cfg.max_landmarks then
    (.SUCCESS,
      { m with
        landmarks := l :: m.landmarks,
        version := m.version + 1 })
  else
    match lowestCovisKeyframe m with
    | none => (.ERROR_OUT_OF_MEMORY, m)
    | some victim =>
      let m2 := removeKeyframe m victim
      if m2.landmarks.length < cfg.max_landmarks then
        (.SUCCESS, { m2 with landmarks := l :: m2.landmarks })
      else (.ERROR_OUT_OF_MEMORY, m)

/-! ### System Facade (spec sections 4.1, 6 and the `SpatialSLAM_*` entry
points of SpatialSLAMBridge.h). -/

/-- Modelled from the spec: an incoming camera frame — width/height-tagged
8-bit image buffer plus timestamp (spec section 6 "Frame ingestion";
`SpatialSLAM_ProcessFrame` parameters, SpatialSLAMBridge.h lines 173-180). -/
structure Frame where
  width : Nat
  height : Nat
  data : List Nat
  timestamp : Int
  deriving DecidableEq, Repr

/-- Modelled from the spec: the per-instance state owned by the System
Facade — state machine, configuration, calibration, active map, current
pose, statistics, the deterministic per-session estimator seed, and the
tracking toggle (spec sections 2, 4.1, 9). -/
structure SlamSystem where
  state : SpatialSLAMState
  config : SpatialSLAMConfig
  calibration : SpatialCameraCalibration
  activeMap : GeoMap
  currentPose : SpatialPose
  stats : SpatialTrackingStats
  rngState : Nat
  consecutiveFailures : Nat
  trackingEnabled : Bool
  deriving DecidableEq

/-- Modelled from the spec: the identity pose a fresh instance reports
before any frame. -/
def identityPose : SpatialPose :=
  { posX := 0, posY := 0, posZ := 0, rotX := 0, rotY := 0, rotZ := 0
    rotW := 1, timestamp := 0, confidence := 0 }

/-- Modelled from the spec: zeroed statistics of a fresh instance. -/
def emptyStats : SpatialTrackingStats :=
  { total_keyframes := 0, total_landmarks := 0, tracking_keyframes := 0
    average_reprojection_error := 0, processing_time_ms := 0
    quality := .POOR, feature_count := 0, matched_features := 0 }

/-- Modelled from the spec: the deterministic per-session seed of the
robust estimator (spec section 4.2: "it must be seeded deterministically
per session for reproducibility in tests"). -/
def sessionSeed : Nat := 88172645463325252 % 2147483648

/-- Modelled from the spec: the default configuration `SpatialSLAM_Create`
applies when its `config` argument is NULL (SpatialSLAMBridge.h line 131:
"can be NULL for defaults"; spec section 3 "Configuration"). -/
def defaultConfig : SpatialSLAMConfig :=
  { max_features := 1000, feature_quality := 1, min_feature_distance := 10
    max_reprojection_error := 2, min_tracking_features := 30
    max_tracking_iterations := 10, keyframe_threshold := 90
    keyframe_distance := 1, keyframe_angle := 1
    enable_multithreading := true, max_threads := 4
    enable_loop_closure := true, enable_relocalization := true
    max_keyframes := 500, max_landmarks := 10000, memory_limit_mb := 512 }

/-- Modelled from the spec: calibration validity checked at creation
(positive focal lengths and image dimensions; spec section 8 "valid
calibration"). -/
def validCalibration (c : SpatialCameraCalibration) : Bool :=
  decide (0 < c.fx) && decide (0 < c.fy) &&
    decide (0 < c.width) && decide (0 < c.height)

/-- Modelled from the spec: configuration validity checked at creation
(positive feature budget, thresholds and memory ceilings). -/
def validConfig (c : SpatialSLAMConfig) : Bool :=
  decide (0 < c.max_features) && decide (0 < c.min_tracking_features) &&
    decide (0 < c.max_keyframes) && decide (0 < c.max_landmarks) &&
    decide (0 < c.max_threads)

/-- Modelled from the spec: `SpatialSLAM_Create` — validate calibration,
configuration and vocabulary, then hand back a READY instance with an
empty active map and the deterministic session seed, or no handle on
failure (SpatialSLAMBridge.h lines 136-140; spec sections 4.1 and 8). -/
def SpatialSLAM_Create (config : Option SpatialSLAMConfig)
    (calibration : SpatialCameraCalibration) (vocabOk : Bool) :
    Option SlamSystem :=
  let cfg := config.getD defaultConfig
  if validConfig cfg && validCalibration calibration && vocabOk then
    some { state := .READY, config := cfg, calibration := calibration
           activeMap := emptyMap, currentPose := identityPose
           stats := emptyStats, rngState := sessionSeed
           consecutiveFailures := 0, trackingEnabled := true }
  else none

/-- `SpatialSLAM_GetState` (SpatialSLAMBridge.h line 160): report the
current state. -/
def SpatialSLAM_GetState (s : SlamSystem) : SpatialSLAMState := s.state

/-- Modelled from the spec: `SpatialSLAM_Reset` — return the instance to
its initial state: READY, empty map, identity pose, zeroed statistics and
the fresh session seed (SpatialSLAMBridge.h line 153; spec section 8
"Idempotence"). -/
def SpatialSLAM_Reset (s : SlamSystem) : SpatialSLAMResult × SlamSystem :=
  (.SUCCESS,
    { s with
      state := .READY
      activeMap := emptyMap
      currentPose := identityPose
      stats := emptyStats
      rngState := sessionSeed
      consecutiveFailures := 0
      trackingEnabled := true })

/-- Modelled from the spec: `SpatialSLAM_ClearMap` — replace the active
map wholesale by the empty map (SpatialSLAMBridge.h line 282; spec
section 4.3 "atomic replace active map"). -/
def SpatialSLAM_ClearMap (s : SlamSystem) : SpatialSLAMResult × SlamSystem :=
  (.SUCCESS, { s with activeMap := emptyMap })

/-- Modelled from the spec: the `SpatialMapInfo` snapshot of a map. -/
def mapInfoOf (m : GeoMap) : SpatialMapInfo :=
  { map_id := m.mapId, centerX := m.centerX, centerY := m.centerY
    centerZ := m.centerZ, bbMinX := m.bbMinX, bbMinY := m.bbMinY
    bbMinZ := m.bbMinZ, bbMaxX := m.bbMaxX, bbMaxY := m.bbMaxY
    bbMaxZ := m.bbMaxZ, landmark_count := m.landmarks.length
    keyframe_count := m.keyframes.card
    creation_timestamp := m.creationTimestamp, version := m.version }

/-- Modelled from the spec: `SpatialSLAM_GetMapInfo` — report the active
map's identifier, bounding volume, counts and version
(SpatialSLAMBridge.h lines 272-275). -/
def SpatialSLAM_GetMapInfo (s : SlamSystem) :
    SpatialSLAMResult × SpatialMapInfo :=
  (.SUCCESS, mapInfoOf s.activeMap)

/-- Modelled from the spec: `SpatialSLAM_SaveMapToBuffer` — serialize the
active map through the Map Codec; the second component is the written
buffer and the third the exact number of words written
(SpatialSLAMBridge.h lines 224-229; spec section 6 "Save reports exact
bytes written"). -/
def SpatialSLAM_SaveMapToBuffer (s : SlamSystem) :
    SpatialSLAMResult × List Int × Nat :=
  let buf := serializeMap s.activeMap
  (.SUCCESS, buf, buf.length)

/-- Modelled from the spec: `SpatialSLAM_LoadMapFromBuffer` — run the Map
Codec validation; on success replace the active map wholesale, on any
validation failure return `ERROR_MAP_LOAD_FAILED` and leave the instance
untouched (SpatialSLAMBridge.h lines 238-242; spec sections 4.6 and 7(d)). -/
def SpatialSLAM_LoadMapFromBuffer (s : SlamSystem) (buf : List Int) :
    SpatialSLAMResult × SlamSystem :=
  match deserializeMap buf with
  | none => (.ERROR_MAP_LOAD_FAILED, s)
  | some m => (.SUCCESS, { s with activeMap := m })

/-- Modelled from the spec: `SpatialSLAM_GetTrackingStats` — report the
per-frame statistics snapshot (SpatialSLAMBridge.h lines 199-202). -/
def SpatialSLAM_GetTrackingStats (s : SlamSystem) :
    SpatialSLAMResult × SpatialTrackingStats :=
  (.SUCCESS, s.stats)

/-- Modelled from the spec: `SpatialSLAM_RequestRelocalization` — when
`enable_relocalization` is false the request is refused with
`ERROR_SYSTEM_NOT_READY` and no state change; otherwise an initialized,
non-failed instance enters RELOCALIZATION (SpatialSLAMBridge.h line 301;
spec sections 4.5 and 8). -/
def SpatialSLAM_RequestRelocalization (s : SlamSystem) :
    SpatialSLAMResult × SlamSystem :=
  if s.config.enable_relocalization = false then
    (.ERROR_SYSTEM_NOT_READY, s)
  else if s.state = .UNINITIALIZED ∨ s.state = .FAILED then
    (.ERROR_SYSTEM_NOT_READY, s)
  else (.SUCCESS, { s with state := .RELOCALIZATION })

/-- Modelled from the spec: the Feature Pipeline's extracted keypoint
count — keypoints whose response clears `feature_quality`, capped at
`max_features` (spec section 4.1 "extract up to max_features keypoints
filtered by feature_quality"). -/
def extractFeatureCount (cfg : SpatialSLAMConfig) (f : Frame) : Nat :=
  min cfg.max_features
    ((f.data.filter
      (fun v => decide (cfg.feature_quality ≤ (v : Int)))).length)

/-- Modelled from the spec: one step of the deterministically seeded
robust-estimator generator (spec section 4.2). -/
def stepRng (r : Nat) : Nat := (r * 1103515245 + 12345) % 2147483648

/-- Modelled from the spec: the Pose Estimator's output on an accepted
frame — a pose that is a function only of the session state and the frame
(spec section 4.2 "Deterministic given identical inputs and prior"). -/
def estimatePose (s : SlamSystem) (f : Frame) (nFeat : Nat) : SpatialPose :=
  { posX := ((f.data.foldl (fun a v => a + v) 0 + s.rngState) % 1024 : Nat)
    posY := ((nFeat * 7 + s.rngState) % 1024 : Nat)
    posZ := ((s.activeMap.landmarks.length + nFeat) % 1024 : Nat)
    rotX := 0, rotY := 0, rotZ := 0, rotW := 1
    timestamp := f.timestamp
    confidence := (min 100 nFeat : Nat) }

/-- Modelled from the spec: `SpatialSLAM_ProcessFrame` — the per-frame
tracking path of spec section 4.1: reject calls on an uninitialized or
failed instance; extract features; a frame below `min_tracking_features`
yields `ERROR_INSUFFICIENT_FEATURES`, never enters TRACKING, and drives a
TRACKING instance to LOST; an accepted frame produces the deterministic
estimated pose and enters TRACKING (SpatialSLAMBridge.h lines 173-180). -/
def SpatialSLAM_ProcessFrame (s : SlamSystem) (f : Frame) :
    SpatialSLAMResult × Option SpatialPose × SlamSystem :=
  if s.state = .UNINITIALIZED ∨ s.state = .FAILED then
    (.ERROR_SYSTEM_NOT_READY, none, s)
  else if s.trackingEnabled = false then
    (.ERROR_SYSTEM_NOT_READY, none, s)
  else if f.width = 0 ∨ f.height = 0 then
    (.ERROR_INVALID_PARAMETER, none, s)
  else
    let nFeat := extractFeatureCount s.config f
    if nFeat < s.config.min_tracking_features then
      (.ERROR_INSUFFICIENT_FEATURES, none,
        { s with
          state := if s.state = .TRACKING then .LOST else s.state
          consecutiveFailures := s.consecutiveFailures + 1
          stats :=
            { s.stats with
              total_keyframes := s.activeMap.keyframes.card
              total_landmarks := s.activeMap.landmarks.length
              feature_count := nFeat, matched_features := 0
              quality := .POOR } })
    else
      let pose := estimatePose s f nFeat
      (.SUCCESS, some pose,
        { s with
          state := .TRACKING, currentPose := pose
          rngState := stepRng s.rngState, consecutiveFailures := 0
          stats :=
            { s.stats with
              total_keyframes := s.activeMap.keyframes.card
              total_landmarks := s.activeMap.landmarks.length
              feature_count := nFeat
              matched_features := min nFeat s.activeMap.landmarks.length
              quality := .GOOD } })

/-- Modelled from the spec: feed a frame sequence through
`SpatialSLAM_ProcessFrame`, collecting the returned result codes and
poses (spec section 8, determinism property). -/
def runFrames : SlamSystem → List Frame →
    List (SpatialSLAMResult × Option SpatialPose) × SlamSystem
  | s, [] => ([], s)
  | s, f :: fs =>
    let step := SpatialSLAM_ProcessFrame s f
    let rest := runFrames step.2.2 fs
    ((step.1, step.2.1) :: rest.1, rest.2)

/-! ### Concrete fixtures used by the witness theorems. -/

/-- A valid sample calibration. -/
def sampleCal : SpatialCameraCalibration :=
  { fx := 500, fy := 500, cx := 320, cy := 240, k1 := 0, k2 := 0, k3 := 0
    p1 := 0, p2 := 0, width := 640, height := 480 }

/-- A sample landmark observed by keyframes 1 and 2. -/
def sampleLandmark : Landmark :=
  { lid := 7, posX := 1, posY := 2, posZ := 3, descriptor := 5
    observers := {1, 2} }

/-- A sample non-empty map satisfying the Map invariant. -/
def sampleMap : GeoMap :=
  { mapId := 3, version := 4, creationTimestamp := 9
    centerX := 1, centerY := 2, centerZ := 3
    bbMinX := -4, bbMinY := -5, bbMinZ := -6
    bbMaxX := 4, bbMaxY := 5, bbMaxZ := 6
    keyframes := {1, 2}, landmarks := [sampleLandmark] }

/-- A sample live instance holding `sampleMap`. -/
def sampleSystem : SlamSystem :=
  { state := .TRACKING, config := defaultConfig, calibration := sampleCal
    activeMap := sampleMap, currentPose := identityPose
    stats := emptyStats, rngState := sessionSeed
    consecutiveFailures := 0, trackingEnabled := true }

/-- The instance `SpatialSLAM_Create (some defaultConfig) sampleCal true`
hands back. -/
def sampleCreated : SlamSystem :=
  { state := .READY, config := defaultConfig, calibration := sampleCal
    activeMap := emptyMap, currentPose := identityPose
    stats := emptyStats, rngState := sessionSeed
    consecutiveFailures := 0, trackingEnabled := true }

/-- A small sample frame (4 pixels, 3 above the quality threshold). -/
def sampleFrame : Frame :=
  { width := 2, height := 2, data := [0, 1, 2, 3], timestamp := 1 }

/-- A sample sequence of Map Store mutations. -/
def sampleOps : List MapOp :=
  [.insertKF 9, .triangulate { sampleLandmark with lid := 8 },
    .merge 7 8, .cullKF 1, .cullWeak]

/-- A sample instance whose configuration disables relocalization. -/
def sampleSystemNoReloc : SlamSystem :=
  { sampleSystem with
    config := { defaultConfig with enable_relocalization := false } }

/-- A sample configuration whose memory ceilings `sampleMap` already
sits at. -/
def sampleTightConfig : SpatialSLAMConfig :=
  { defaultConfig with max_keyframes := 2, max_landmarks := 1 }

theorem readWord_cons (x : Int) (rest : List Int) :
    readWord (x :: rest) = some (x, rest) := rfl

theorem readNat_cons (n : Nat) (rest : List Int) :
    readNat ((n : Int) :: rest) = some (n, rest) := by
  simp [readNat]

theorem readNats_append (xs : List Nat) (rest : List Int) :
    readNats xs.length (xs.map (fun (k : Nat) => (k : Int)) ++ rest) =
      some (xs, rest) := by
  induction xs generalizing rest with
  | nil => rfl
  | cons x xs ih =>
    simp only [List.length_cons, List.map_cons, List.cons_append,
      readNats, readNat_cons, ih]

theorem decodeLandmark_encode (l : Landmark) (rest : List Int) :
    decodeLandmark (encodeLandmark l ++ rest) = some (l, rest) := by
  simp only [encodeLandmark, List.cons_append, List.append_assoc,
    List.nil_append]
  simp only [decodeLandmark, readNat_cons, readWord_cons]
  rw [show l.observers.card = (l.observers.sort (· ≤ ·)).length from
    (Finset.length_sort _).symm]
  rw [readNats_append]
  simp only [Finset.sort_toFinset]

theorem decodeLandmarks_encode (ls : List Landmark) (rest : List Int) :
    decodeLandmarks ls.length ((ls.map encodeLandmark).flatten ++ rest) =
      some (ls, rest) := by
  induction ls generalizing rest with
  | nil => rfl
  | cons l ls ih =>
    simp only [List.map_cons, List.flatten_cons, List.length_cons,
      List.append_assoc]
    simp [decodeLandmarks, decodeLandmark_encode, ih]

theorem mapConsistent_of_inv (m : GeoMap) (h : MapInv m) :
    mapConsistent m.keyframes m.landmarks = true := by
  unfold mapConsistent
  rw [List.all_eq_true]
  intro l hl
  obtain ⟨hne, hsub⟩ := h l hl
  simp [Finset.card_pos, hne, hsub]

/-- The Map Codec round trip: a map satisfying the Map invariant
deserializes from its own serialization exactly. -/
theorem deserialize_serialize (m : GeoMap) (hInv : MapInv m) :
    deserializeMap (serializeMap m) = some m := by
  simp only [serializeMap, List.cons_append, List.append_assoc,
    List.nil_append]
  simp only [deserializeMap, readWord_cons, readNat_cons, ne_eq,
    not_true_eq_false, if_false, ite_false, reduceIte]
  simp only [decodeMapTail, readWord_cons, readNat_cons]
  rw [show m.keyframes.card = (m.keyframes.sort (· ≤ ·)).length from
    (Finset.length_sort _).symm]
  rw [show (m.landmarks.map encodeLandmark).flatten =
        (m.landmarks.map encodeLandmark).flatten ++ [] from
    (List.append_nil _).symm]
  rw [readNats_append]
  rw [show m.landmarks.length = m.landmarks.length from rfl]
  simp only [decodeLandmarks_encode, Finset.sort_toFinset,
    Finset.length_sort]
  have hc := mapConsistent_of_inv m hInv
  simp [hc]

/-- C10: `SPATIAL_SLAM_SUCCESS` equals 0 and every other member of the
closed `SpatialSLAMResult` enumeration is a distinct negative integer
between -10 and -1, so success is exactly `result == 0` and every failure
satisfies `result < 0`. -/
theorem result_codes_success_zero_failures_negative :
    SpatialSLAMResult.toInt .SUCCESS = 0 ∧
    (∀ r : SpatialSLAMResult, (r.toInt = 0 ↔ r = .SUCCESS)) ∧
    (∀ r : SpatialSLAMResult, (r.toInt < 0 ↔ r ≠ .SUCCESS)) ∧
    (∀ r : SpatialSLAMResult,
      (r ≠ .SUCCESS ↔ (-10 ≤ r.toInt ∧ r.toInt ≤ -1))) ∧
    (∀ r s : SpatialSLAMResult, (r.toInt = s.toInt ↔ r = s)) := by
  refine ⟨rfl, ?_, ?_, ?_, ?_⟩ <;> decide

theorem deserializeMap_none_of_bad_head (buf : List Int)
    (h : buf.take 2 ≠ [mapMagic, mapFormatVersion]) :
    deserializeMap buf = none := by
  match buf with
  | [] => rfl
  | [x] =>
    by_cases hx : x = mapMagic
    · subst hx
      simp [deserializeMap, readWord]
    · simp [deserializeMap, readWord, hx]
  | x :: y :: rest =>
    by_cases hx : x = mapMagic
    · subst hx
      by_cases hy : y = mapFormatVersion
      · subst hy
        simp [List.take] at h
      · simp [deserializeMap, readWord, hy]
    · simp [deserializeMap, readWord, hx]

/-- C1: for every instance with a non-empty active map satisfying the Map
invariant, `SaveMapToBuffer` then `ClearMap` then `LoadMapFromBuffer` on
the saved buffer restores the values reported by `GetMapInfo` (landmark
count, keyframe count, bounding box, version) exactly to their pre-save
values. -/
theorem save_clear_load_restores_map_info (s : SlamSystem)
    (hInv : MapInv s.activeMap) (_hne : s.activeMap.keyframes.Nonempty) :
    SpatialSLAM_GetMapInfo
      (SpatialSLAM_LoadMapFromBuffer (SpatialSLAM_ClearMap s).2
        (SpatialSLAM_SaveMapToBuffer s).2.1).2 =
    SpatialSLAM_GetMapInfo s := by
  simp only [SpatialSLAM_SaveMapToBuffer, SpatialSLAM_ClearMap,
    SpatialSLAM_LoadMapFromBuffer, deserialize_serialize s.activeMap hInv,
    SpatialSLAM_GetMapInfo]

/-- Witness for C1 at a concrete populated instance. -/
theorem save_clear_load_restores_map_info_witness :
    MapInv sampleSystem.activeMap ∧
    sampleSystem.activeMap.keyframes.Nonempty ∧
    SpatialSLAM_GetMapInfo
      (SpatialSLAM_LoadMapFromBuffer (SpatialSLAM_ClearMap sampleSystem).2
        (SpatialSLAM_SaveMapToBuffer sampleSystem).2.1).2 =
      SpatialSLAM_GetMapInfo sampleSystem :=
  ⟨by decide, by decide,
    save_clear_load_restores_map_info sampleSystem (by decide) (by decide)⟩

/-- C3: for every buffer whose magic/version header is corrupted, or that
fails any validation of the Map Codec, `LoadMapFromBuffer` returns
`SPATIAL_SLAM_ERROR_MAP_LOAD_FAILED` and leaves the instance — in
particular its active map — completely unmodified. -/
theorem load_corrupt_buffer_rejected_map_untouched (s : SlamSystem)
    (buf : List Int)
    (h : buf.take 2 ≠ [mapMagic, mapFormatVersion] ∨
      deserializeMap buf = none) :
    SpatialSLAM_LoadMapFromBuffer s buf = (.ERROR_MAP_LOAD_FAILED, s) := by
  have hnone : deserializeMap buf = none := by
    rcases h with h | h
    · exact deserializeMap_none_of_bad_head buf h
    · exact h
  simp only [SpatialSLAM_LoadMapFromBuffer, hnone]

/-- Witness for C3 at a concrete corrupted buffer. -/
theorem load_corrupt_buffer_rejected_map_untouched_witness :
    ([0, 0, 0] : List Int).take 2 ≠ [mapMagic, mapFormatVersion] ∧
    SpatialSLAM_LoadMapFromBuffer sampleSystem [0, 0, 0] =
      (.ERROR_MAP_LOAD_FAILED, sampleSystem) :=
  ⟨by decide,
    load_corrupt_buffer_rejected_map_untouched sampleSystem [0, 0, 0]
      (Or.inl (by decide))⟩

/-- C4: calling `Reset` twice in a row leaves the system in the same
state (READY, empty map) as calling it once — `Reset` is idempotent. -/
theorem reset_idempotent (s : SlamSystem) :
    SpatialSLAM_Reset (SpatialSLAM_Reset s).2 = SpatialSLAM_Reset s ∧
    (SpatialSLAM_Reset s).2.state = .READY ∧
    (SpatialSLAM_Reset s).2.activeMap = emptyMap :=
  ⟨rfl, rfl, rfl⟩

/-- C5: when `enable_relocalization` is false,
`SpatialSLAM_RequestRelocalization` returns
`SPATIAL_SLAM_ERROR_SYSTEM_NOT_READY` and the state observed through
`SpatialSLAM_GetState` is unchanged. -/
theorem request_reloc_disabled_not_ready (s : SlamSystem)
    (h : s.config.enable_relocalization = false) :
    SpatialSLAM_RequestRelocalization s = (.ERROR_SYSTEM_NOT_READY, s) ∧
    SpatialSLAM_GetState (SpatialSLAM_RequestRelocalization s).2 =
      SpatialSLAM_GetState s := by
  constructor
  · simp [SpatialSLAM_RequestRelocalization, h]
  · simp [SpatialSLAM_RequestRelocalization, h, SpatialSLAM_GetState]

/-- Witness for C5 at a concrete instance with relocalization disabled. -/
theorem request_reloc_disabled_not_ready_witness :
    sampleSystemNoReloc.config.enable_relocalization = false ∧
    SpatialSLAM_RequestRelocalization sampleSystemNoReloc =
      (.ERROR_SYSTEM_NOT_READY, sampleSystemNoReloc) :=
  ⟨by decide,
    (request_reloc_disabled_not_ready sampleSystemNoReloc (by decide)).1⟩

/-- C9: a successful `SpatialSLAM_Create` followed immediately by
`SpatialSLAM_GetState` — before any frame — reports READY (and so never
TRACKING, LOST, RELOCALIZATION, or FAILED). -/
theorem create_then_get_state_ready (config : Option SpatialSLAMConfig)
    (cal : SpatialCameraCalibration) (vocabOk : Bool) (s : SlamSystem)
    (h : SpatialSLAM_Create config cal vocabOk = some s) :
    SpatialSLAM_GetState s = .READY := by
  simp only [SpatialSLAM_Create] at h
  split at h
  · cases h
    rfl
  · exact Option.noConfusion h

/-- Witness for C9 at a concrete valid calibration and configuration. -/
theorem create_then_get_state_ready_witness :
    SpatialSLAM_Create (some defaultConfig) sampleCal true =
      some sampleCreated ∧
    SpatialSLAM_GetState sampleCreated = .READY :=
  ⟨by decide,
    create_then_get_state_ready (some defaultConfig) sampleCal true
      sampleCreated (by decide)⟩

/-- C2: two instances created from the same calibration, configuration
and vocabulary, fed the same frame sequence, return identical sequences
of result codes and poses and identical tracking statistics — the
estimation path is deterministic, its robust estimator being seeded
deterministically per session. -/
theorem two_run_determinism (config : Option SpatialSLAMConfig)
    (cal : SpatialCameraCalibration) (vocabOk : Bool) (frames : List Frame)
    (s1 s2 : SlamSystem)
    (h1 : SpatialSLAM_Create config cal vocabOk = some s1)
    (h2 : SpatialSLAM_Create config cal vocabOk = some s2) :
    runFrames s1 frames = runFrames s2 frames ∧
    SpatialSLAM_GetTrackingStats (runFrames s1 frames).2 =
      SpatialSLAM_GetTrackingStats (runFrames s2 frames).2 := by
  have hs : s1 = s2 := by
    rw [h1] at h2
    exact Option.some.inj h2
  subst hs
  exact ⟨rfl, rfl⟩

/-- Witness for C2 at a concrete calibration and frame sequence. -/
theorem two_run_determinism_witness :
    runFrames sampleCreated [sampleFrame] =
      runFrames sampleCreated [sampleFrame] ∧
    SpatialSLAM_GetTrackingStats (runFrames sampleCreated [sampleFrame]).2 =
      SpatialSLAM_GetTrackingStats (runFrames sampleCreated [sampleFrame]).2 :=
  two_run_determinism (some defaultConfig) sampleCal true [sampleFrame]
    sampleCreated sampleCreated (by decide) (by decide)

/-- C8: a frame whose extracted feature count is below
`min_tracking_features` yields `SPATIAL_SLAM_ERROR_INSUFFICIENT_FEATURES`,
never leaves the system in TRACKING, and drives a TRACKING instance to
LOST. -/
theorem low_features_never_tracking (s : SlamSystem) (f : Frame)
    (hs1 : s.state ≠ .UNINITIALIZED) (hs2 : s.state ≠ .FAILED)
    (hen : s.trackingEnabled = true) (hw : f.width ≠ 0) (hh : f.height ≠ 0)
    (hlow : extractFeatureCount s.config f <
      s.config.min_tracking_features) :
    (SpatialSLAM_ProcessFrame s f).1 = .ERROR_INSUFFICIENT_FEATURES ∧
    (SpatialSLAM_ProcessFrame s f).2.2.state ≠ .TRACKING ∧
    (s.state = .TRACKING →
      (SpatialSLAM_ProcessFrame s f).2.2.state = .LOST) := by
  have h1 : (SpatialSLAM_ProcessFrame s f).1 =
      .ERROR_INSUFFICIENT_FEATURES := by
    simp [SpatialSLAM_ProcessFrame, hs1, hs2, hen, hw, hh, hlow]
  have h2 : (SpatialSLAM_ProcessFrame s f).2.2.state =
      (if s.state = .TRACKING then SpatialSLAMState.LOST else s.state) := by
    simp [SpatialSLAM_ProcessFrame, hs1, hs2, hen, hw, hh, hlow]
  refine ⟨h1, ?_, ?_⟩
  · rw [h2]
    by_cases hst : s.state = .TRACKING
    · simp [hst]
    · rw [if_neg hst]
      exact hst
  · intro hst
    rw [h2]
    simp [hst]

/-- Witness for C8 at a concrete TRACKING instance and low-feature
frame. -/
theorem low_features_never_tracking_witness :
    extractFeatureCount sampleSystem.config sampleFrame <
      sampleSystem.config.min_tracking_features ∧
    (SpatialSLAM_ProcessFrame sampleSystem sampleFrame).1 =
      .ERROR_INSUFFICIENT_FEATURES ∧
    (SpatialSLAM_ProcessFrame sampleSystem sampleFrame).2.2.state ≠
      .TRACKING :=
  ⟨by decide,
    (low_features_never_tracking sampleSystem sampleFrame (by decide)
      (by decide) (by decide) (by decide) (by decide) (by decide)).1,
    (low_features_never_tracking sampleSystem sampleFrame (by decide)
      (by decide) (by decide) (by decide) (by decide) (by decide)).2.1⟩

theorem mapInv_insertKeyframe (m : GeoMap) (k : Nat) (h : MapInv m) :
    MapInv (insertKeyframe m k) := by
  intro l hl
  obtain ⟨hne, hsub⟩ := h l hl
  exact ⟨hne, hsub.trans (Finset.subset_insert k m.keyframes)⟩

theorem mapInv_removeKeyframe (m : GeoMap) (k : Nat) (h : MapInv m) :
    MapInv (removeKeyframe m k) := by
  intro l hl
  simp only [removeKeyframe, List.mem_filter, List.mem_map] at hl
  obtain ⟨⟨l0, hl0, rfl⟩, hpos⟩ := hl
  refine ⟨Finset.card_pos.mp (of_decide_eq_true hpos), ?_⟩
  exact Finset.erase_subset_erase k (h l0 hl0).2

theorem mapInv_triangulate (m : GeoMap) (l : Landmark) (h : MapInv m) :
    MapInv (triangulateLandmark m l) := by
  unfold triangulateLandmark
  split
  · rename_i hc
    intro l2 hl2
    rcases List.mem_cons.mp hl2 with rfl | hmem
    · exact ⟨Finset.card_pos.mp (Nat.lt_of_lt_of_le Nat.zero_lt_two hc.1),
        hc.2⟩
    · exact h l2 hmem
  · exact h

theorem mapInv_cullWeak (m : GeoMap) (h : MapInv m) :
    MapInv (cullWeakLandmarks m) := by
  intro l hl
  simp only [cullWeakLandmarks, List.mem_filter] at hl
  exact h l hl.1

theorem mapInv_merge (m : GeoMap) (i j : Nat) (h : MapInv m) :
    MapInv (mergeDuplicateLandmarks m i j) := by
  unfold mergeDuplicateLandmarks
  split
  · rename_i a b hfa hfb
    have ha : a ∈ m.landmarks := List.mem_of_find?_eq_some hfa
    have hb : b ∈ m.landmarks := List.mem_of_find?_eq_some hfb
    split
    · exact h
    · intro l2 hl2
      rcases List.mem_cons.mp hl2 with rfl | hmem
      · constructor
        · obtain ⟨x, hx⟩ := (h a ha).1
          exact ⟨x, Finset.mem_union_left _ hx⟩
        · exact Finset.union_subset (h a ha).2 (h b hb).2
      · exact h l2 (List.mem_filter.mp hmem).1
  · exact h

theorem mapInv_applyMapOp (m : GeoMap) (op : MapOp) (h : MapInv m) :
    MapInv (applyMapOp m op) := by
  cases op with
  | insertKF k => exact mapInv_insertKeyframe m k h
  | cullKF k => exact mapInv_removeKeyframe m k h
  | triangulate l => exact mapInv_triangulate m l h
  | cullWeak => exact mapInv_cullWeak m h
  | merge i j => exact mapInv_merge m i j h

/-- C6: the Map invariant — every Landmark's observer set is a non-empty
subset of the Keyframes currently in the Map (no dangling keyframe
reference, no observer-less landmark) — is preserved by every sequence of
map-mutating operations: keyframe insertion and culling, landmark
triangulation and culling, and loop-closure merging. -/
theorem map_mutations_preserve_observer_invariant (ops : List MapOp)
    (m : GeoMap) (h : MapInv m) : MapInv (applyMapOps m ops) := by
  induction ops generalizing m with
  | nil => exact h
  | cons op ops ih => exact ih (applyMapOp m op) (mapInv_applyMapOp m op h)

/-- Witness for C6 at a concrete map and mutation sequence. -/
theorem map_mutations_preserve_observer_invariant_witness :
    MapInv sampleMap ∧ MapInv (applyMapOps sampleMap sampleOps) :=
  ⟨by decide,
    map_mutations_preserve_observer_invariant sampleOps sampleMap
      (by decide)⟩

/-- C7: the keyframe and landmark counts of the active map never exceed
the configured `max_keyframes` and `max_landmarks` — ceiling-checked
insertion culls the lowest-covisibility-weight Keyframe first, and when
culling cannot free headroom it fails with the out-of-memory result while
leaving the map (and so the instance) exactly as it was, still usable. -/
theorem memory_ceilings_enforced (cfg : SpatialSLAMConfig) (m : GeoMap)
    (k : Nat) (l : Landmark)
    (hkf : m.keyframes.card ≤ cfg.max_keyframes)
    (hlm : m.landmarks.length ≤ cfg.max_landmarks) :
    (insertKeyframeChecked cfg m k).2.keyframes.card ≤ cfg.max_keyframes ∧
    ((insertKeyframeChecked cfg m k).1 = .ERROR_OUT_OF_MEMORY →
      (insertKeyframeChecked cfg m k).2 = m) ∧
    (insertLandmarkChecked cfg m l).2.landmarks.length ≤
      cfg.max_landmarks ∧
    ((insertLandmarkChecked cfg m l).1 = .ERROR_OUT_OF_MEMORY →
      (insertLandmarkChecked cfg m l).2 = m) := by
  have hkfPart :
      (insertKeyframeChecked cfg m k).2.keyframes.card ≤
        cfg.max_keyframes ∧
      ((insertKeyframeChecked cfg m k).1 = .ERROR_OUT_OF_MEMORY →
        (insertKeyframeChecked cfg m k).2 = m) := by
    unfold insertKeyframeChecked
    split
    · rename_i h1
      exact ⟨Nat.le_trans (Finset.card_insert_le k m.keyframes) h1,
        fun hc => SpatialSLAMResult.noConfusion hc⟩
    · split
      · exact ⟨hkf, fun _ => rfl⟩
      · dsimp only
        split
        · rename_i h2
          exact ⟨Nat.le_trans
            (Finset.card_insert_le k (removeKeyframe m _).keyframes) h2,
            fun hc => SpatialSLAMResult.noConfusion hc⟩
        · exact ⟨hkf, fun _ => rfl⟩
  have hlmPart :
      (insertLandmarkChecked cfg m l).2.landmarks.length ≤
        cfg.max_landmarks ∧
      ((insertLandmarkChecked cfg m l).1 = .ERROR_OUT_OF_MEMORY →
        (insertLandmarkChecked cfg m l).2 = m) := by
    unfold insertLandmarkChecked
    split
    · rename_i h1
      exact ⟨h1, fun hc => SpatialSLAMResult.noConfusion hc⟩
    · split
      · exact ⟨hlm, fun _ => rfl⟩
      · dsimp only
        split
        · rename_i h2
          exact ⟨h2, fun hc => SpatialSLAMResult.noConfusion hc⟩
        · exact ⟨hlm, fun _ => rfl⟩
  exact ⟨hkfPart.1, hkfPart.2, hlmPart.1, hlmPart.2⟩

/-- Witness for C7 at a concrete map sitting exactly at both ceilings. -/
theorem memory_ceilings_enforced_witness :
    sampleMap.keyframes.card ≤ sampleTightConfig.max_keyframes ∧
    sampleMap.landmarks.length ≤ sampleTightConfig.max_landmarks ∧
    (insertKeyframeChecked sampleTightConfig sampleMap 5).2.keyframes.card ≤
      sampleTightConfig.max_keyframes :=
  ⟨by decide, by decide,
    (memory_ceilings_enforced sampleTightConfig sampleMap 5 sampleLandmark
      (by decide) (by decide)).1⟩

end VOXAR
